import Mathlib

/-!
Verification of FileCLI's file-type analysis and sniffing layer.

The Python sources are shallowly embedded:
bytes are `List Nat` (each element one byte value), text fields are `String`,
fallible code returns `Except PyExc _` or `Option _`, and external effects
(randomness, codec decoding, the chardet statistical guesser) are passed in
as explicit oracle parameters.  Floating-point comparisons against the
literals `0.9` and `0.1` are modelled exactly over the naturals
(`10*a > 10*b + 9*c` and `10*d > w`); at the magnitudes involved the float
and exact comparisons agree.
-/

/-- Python exception kinds that the embedded code can raise. -/
inductive PyExc where
  | stopIteration
  | typeError
  | encodingException
  deriving DecidableEq, Repr

/-- The `FileType` enum of `file_handling/analyze/file_type_analyzer.py`,
variants in declaration order. -/
inductive FileType where
  | UNKNOWN
  | PDF
  | EXCEL_LEGACY
  | EXCEL
  | CSV
  | JSON
  | ZIP
  | GZIP
  | TAR
  | XML
  | HTML
  | TEXT
  | JSONL
  | TSV
  | PIPE
  | FIXED_WIDTH
  | NUMBERS
  | PAGES
  deriving DecidableEq, Repr, Fintype

namespace FileType

/-- The `byte_signature` field of each `FileType` variant
(`b''` becomes the empty list). -/
def byte_signature : FileType → List Nat
  | .PDF => [0x25, 0x50, 0x44, 0x46]
  | .EXCEL_LEGACY => [0xd0, 0xcf, 0x11, 0xe0, 0xa1, 0xb1, 0x1a, 0xe1]
  | .EXCEL => [0x50, 0x4b, 0x03, 0x04]
  | .ZIP => [0x50, 0x4b, 0x03, 0x04]
  | .GZIP => [0x1f, 0x8b]
  | _ => []

/-- Iteration order of `for ft in FileType` (enum declaration order). -/
def enumOrder : List FileType :=
  [.UNKNOWN, .PDF, .EXCEL_LEGACY, .EXCEL, .CSV, .JSON, .ZIP, .GZIP, .TAR,
   .XML, .HTML, .TEXT, .JSONL, .TSV, .PIPE, .FIXED_WIDTH, .NUMBERS, .PAGES]

end FileType

/-- `pat` occurs at the start of `l` (Python `bytes.startswith`). -/
def listStartsWith : List Nat → List Nat → Bool
  | [], _ => true
  | _ :: _, [] => false
  | p :: ps, b :: bs => p = b && listStartsWith ps bs

/-- `FileTypeAnalyzer.file_type_from_signature`: read the first 16 bytes and
return the first enum variant (declaration order) whose non-empty
`byte_signature` is a prefix of them, else UNKNOWN.  The path argument of the
Python method is used only to open the file, so the model takes the file's
byte content directly. -/
def file_type_from_signature (content : List Nat) : FileType :=
  let sig16 := content.take 16
  match FileType.enumOrder.find?
      (fun ft => listStartsWith ft.byte_signature sig16 && ft.byte_signature ≠ []) with
  | some ft => ft
  | none => FileType.UNKNOWN

/-- The branch cascade of `FileTypeAnalyzer.file_type` as a function of the
three sub-classification results (extension, signature, characteristics).
`==`/`is` on this enum coincide with equality of variants because all variant
value dicts are pairwise distinct. -/
def file_type_merge (e s c : FileType) : FileType :=
  if e = s ∧ e ≠ FileType.UNKNOWN then e
  else if e = c ∧ e ≠ FileType.UNKNOWN then e
  else if s = c ∧ s ≠ FileType.UNKNOWN then s
  else if s ≠ FileType.UNKNOWN then s
  else if e = FileType.UNKNOWN ∧ c = FileType.FIXED_WIDTH then c
  else if c ≠ FileType.UNKNOWN then c
  else FileType.TEXT

/-- The spec's 7-step merge precedence table, written from the spec's words:
1. extension == signature and extension ≠ UNKNOWN → extension;
2. extension == characteristics and extension ≠ UNKNOWN → extension;
3. signature == characteristics and signature ≠ UNKNOWN → signature;
4. signature ≠ UNKNOWN → signature;
5. extension == UNKNOWN and characteristics == FIXED_WIDTH → characteristics;
6. characteristics ≠ UNKNOWN → characteristics;
7. otherwise TEXT. -/
def specMergeTable (e s c : FileType) : FileType :=
  if e = s ∧ e ≠ FileType.UNKNOWN then e
  else if e = c ∧ e ≠ FileType.UNKNOWN then e
  else if s = c ∧ s ≠ FileType.UNKNOWN then s
  else if s ≠ FileType.UNKNOWN then s
  else if e = FileType.UNKNOWN ∧ c = FileType.FIXED_WIDTH then c
  else if c ≠ FileType.UNKNOWN then c
  else FileType.TEXT

/-- The `LineTerminator` enum of `file_handling/analyze/sniffer.py`,
variants in declaration order (CRLF, LF, CR). -/
inductive LineTerminator where
  | CRLF
  | LF
  | CR
  deriving DecidableEq, Repr

/-- Non-overlapping left-to-right occurrence count of the two-byte pattern
`\r\n` (Python `bytes.count(b"\r\n")`): at a match the scan advances past
both bytes, otherwise by one byte. -/
def countCRLF : List Nat → Nat
  | [] => 0
  | [_] => 0
  | a :: b :: rest =>
    if a = 13 ∧ b = 10 then countCRLF rest + 1 else countCRLF (b :: rest)

/-- Occurrence count of a line terminator's byte pattern in a sample,
mirroring the `counts` dict of `infer_line_terminator`. -/
def ltCount (s : List Nat) : LineTerminator → Nat
  | .CRLF => countCRLF s
  | .LF => s.count 10
  | .CR => s.count 13

/-- `FileSniffer.infer_line_terminator`: CRLF when its count exceeds
`LF + 0.9*CR` (modelled exactly as `10*crlf > 10*lf + 9*cr`); else CRLF on an
LF/CR count tie; else `max(counts, key=counts.get)`, where Python's `max`
keeps the earliest key (dict order CRLF, LF, CR) among maximal counts. -/
def infer_line_terminator (s : List Nat) : LineTerminator :=
  let crlf := countCRLF s
  let lf := s.count 10
  let cr := s.count 13
  if 10 * crlf > 10 * lf + 9 * cr then .CRLF
  else if lf = cr then .CRLF
  else if crlf ≥ lf ∧ crlf ≥ cr then .CRLF
  else if lf ≥ cr then .LF
  else .CR

/-- A sample holding 100 CRLF sequences, then 5 lone LF, then 5 lone CR. -/
def c7Sample : List Nat :=
  (List.replicate 100 ([13, 10] : List Nat)).flatten ++
    List.replicate 5 10 ++ List.replicate 5 13

/-- The clamp at the top of `File.get_random_sample`:
`if file_size < bytes_to_read: bytes_to_read = file_size`. -/
def bytesToRead (content : List Nat) (n : Nat) : Nat :=
  if content.length < n then content.length else n

/-- The chunk loop of `File.get_random_sample`: `chunk_count` reads of
`file.read(4096)` at the successive random offsets `rand 0, rand 1, …`,
concatenated in order.  `file.read(4096)` at offset `p` yields
`content[p : p+4096]`, i.e. `(content.drop p).take 4096`. -/
def readChunks (content : List Nat) (rand : Nat → Nat) : Nat → List Nat
  | 0 => []
  | k + 1 => readChunks content rand k ++ (content.drop (rand k)).take 4096

/-- `File.get_random_sample(bytes_to_read)`: clamp the request to the file
size, then read `bytes_to_read // 4096` random 4096-byte chunks.  The random
draws of `random.randint(0, file_size - chunk_size)` are supplied by the
oracle `rand`. -/
def get_random_sample (content : List Nat) (n : Nat) (rand : Nat → Nat) : List Nat :=
  readChunks content rand (bytesToRead content n / 4096)

/-- The `Encoding` enum of `file_handling/analyze/sniffer.py`, members in
declaration order. -/
inductive Encoding where
  | ASCII
  | ANSI
  | ISO_8859_1
  | WINDOWS_1252
  | UTF_8_BOM
  | UTF_8
  | CP1252
  | LATIN_1
  | MACROMAN
  | UTF_16_BE
  | UTF_16_LE
  | UTF_16
  | UTF_32_BE
  | UTF_32_LE
  | UTF_32
  | CP850
  | CP1250
  | CP1251
  | CP1253
  deriving DecidableEq, Repr

/-- Iteration order of `for encoding in Encoding`. -/
def allEncodings : List Encoding :=
  [.ASCII, .ANSI, .ISO_8859_1, .WINDOWS_1252, .UTF_8_BOM, .UTF_8, .CP1252,
   .LATIN_1, .MACROMAN, .UTF_16_BE, .UTF_16_LE, .UTF_16, .UTF_32_BE,
   .UTF_32_LE, .UTF_32, .CP850, .CP1250, .CP1251, .CP1253]

/-- The candidate list built in each attempt of `infer_encoding`: encodings
whose codec decodes the current sample without `UnicodeDecodeError`.  Codec
behaviour is external to the repository, so it enters as the oracle
`decodeOk`. -/
def encCandidates (decodeOk : Encoding → List Nat → Bool) (sample : List Nat) :
    List Encoding :=
  allEncodings.filter (fun e => decodeOk e sample)

/-- Outcome of `FileSniffer.infer_encoding`: the returned encoding together
with the sample of the attempt that succeeded (`found = none` models the
final `EncodingException`), the number of loop iterations executed, and the
byte counts passed to `get_random_sample` on each failed attempt, in order. -/
structure EncOutcome where
  found : Option (Encoding × List Nat)
  attempts : Nat
  requests : List Nat
  deriving DecidableEq, Repr

/-- The success test of one attempt of `infer_encoding`:
`if Encoding.get(charset_value) in candidates: return …`.  A `None` guess is
never in the candidate list, so the attempt succeeds exactly when the guess
names a candidate encoding. -/
def attemptSuccess (decodeOk : Encoding → List Nat → Bool)
    (guess : List Nat → Option Encoding) (sample : List Nat) : Option Encoding :=
  match guess sample with
  | some e => if e ∈ encCandidates decodeOk sample then some e else none
  | none => none

/-- The `for i in range(5)` loop body of `infer_encoding`.  `guess` is the
composition `Encoding.get(chardet.detect(sample)['encoding'])` (both external
libraries), `newSample j m` is the fresh random sample produced by
`get_random_sample(m)` on the failed attempt with loop index `j`, and `B` is
`BYTES_TO_ANALYZE`.  A failed attempt with loop index `i` requests `B * i`
bytes, exactly as `self.BYTES_TO_ANALYZE * i` in the source. -/
def inferEncodingGo (decodeOk : Encoding → List Nat → Bool)
    (guess : List Nat → Option Encoding) (newSample : Nat → Nat → List Nat)
    (B : Nat) : Nat → Nat → List Nat → EncOutcome
  | 0, i, _ => { found := none, attempts := i, requests := [] }
  | fuel + 1, i, sample =>
    match attemptSuccess decodeOk guess sample with
    | some e => { found := some (e, sample), attempts := i + 1, requests := [] }
    | none =>
      { found := (inferEncodingGo decodeOk guess newSample B fuel (i + 1)
          (newSample i (B * i))).found,
        attempts := (inferEncodingGo decodeOk guess newSample B fuel (i + 1)
          (newSample i (B * i))).attempts,
        requests := B * i :: (inferEncodingGo decodeOk guess newSample B fuel
          (i + 1) (newSample i (B * i))).requests }

/-- `FileSniffer.infer_encoding`: five attempts starting at loop index 0. -/
def infer_encoding (decodeOk : Encoding → List Nat → Bool)
    (guess : List Nat → Option Encoding) (newSample : Nat → Nat → List Nat)
    (B : Nat) (sample0 : List Nat) : EncOutcome :=
  inferEncodingGo decodeOk guess newSample B 5 0 sample0

/-- Oracle for a run in which no encoding ever decodes the sample. -/
def c5DecodeOk : Encoding → List Nat → Bool := fun _ _ => false

/-- Oracle for a run in which chardet never names a known encoding. -/
def c5Guess : List Nat → Option Encoding := fun _ => none

/-- A 100-byte file used to instantiate the sampling oracle. -/
def c5File : List Nat := List.replicate 100 65

/-- The sampling oracle of the concrete failing run, instantiated with the
real `get_random_sample` over `c5File` and offset draws of 0. -/
def c5NewSample : Nat → Nat → List Nat :=
  fun _ req => get_random_sample c5File req (fun _ => 0)

/-- The initial sample of the concrete failing run. -/
def c5Sample0 : List Nat := [65]

/-- The `Header` enum of `file_handling/analyze/sniffer.py`. -/
inductive Header where
  | TRUE
  | FALSE
  deriving DecidableEq, Repr

/-- The four data types `helpers.get_data_type` can report. -/
inductive PyDataType where
  | int
  | float
  | datetime
  | str
  deriving DecidableEq, Repr

/-- `helpers.get_data_type`: try `int(field)`, then `float(field)`, then the
fixed list of date formats, else `str`.  The stdlib parsers are external, so
they enter as the oracles `isInt`, `isFloat`, `isDate` (the latter true when
any of the eight `datetime.strptime` formats matches). -/
def get_data_type (isInt isFloat isDate : String → Bool) (field : String) :
    PyDataType :=
  if isInt field then .int
  else if isFloat field then .float
  else if isDate field then .datetime
  else .str

/-- `FileSniffer.infer_header`, applied to the rows the csv reader yields
from the decoded sample (csv parsing with the resolved dialect is abstracted
as the row-list input).  `none` models the uncaught exceptions of the source:
`StopIteration` when there is no first row, `ZeroDivisionError` when the
first row is empty, `KeyError` when there is no second row or the second row
is shorter than the first.  Only the second row (`checks[0]`) ever enters the
comparison; `diff > 0.1` is modelled exactly as `10 * diffCount > width`. -/
def infer_header (gdt : String → PyDataType) (rows : List (List String)) :
    Option Header :=
  match rows with
  | [] => none
  | first :: rest =>
    let firstTypes := first.map gdt
    if firstTypes.all (fun t => t = PyDataType.str) then
      if first.length = 0 then none
      else
        match rest with
        | [] => none
        | second :: _ =>
          if second.length < first.length then none
          else
            let secondTypes := second.map gdt
            let diffCount := (List.range first.length).countP
              (fun i => firstTypes.get? i ≠ secondTypes.get? i)
            if 10 * diffCount > first.length then some .TRUE else some .FALSE
    else some .FALSE

/-- The spec's header rule, written from the spec's words: if not every
first-row field classifies as string, no header; otherwise header present
exactly when the fraction of column positions (over the first row's width)
where the first row's type differs from the second row's type exceeds 10%. -/
def specHeaderRule (gdt : String → PyDataType) (first second : List String) :
    Header :=
  if (first.map gdt).all (fun t => t = PyDataType.str) then
    if 10 * ((List.range first.length).countP
        (fun i => (first.map gdt).get? i ≠ (second.map gdt).get? i))
        > first.length
    then .TRUE else .FALSE
  else .FALSE

/-- Digit-string model of Python's `int(field)` succeeding, adequate for the
concrete fields of the C6 examples. -/
def pyIntOK (s : String) : Bool :=
  !s.isEmpty && s.toList.all (fun ch => ch.isDigit)

/-- Model of `float(field)` succeeding on the example fields (every such
field is a digit string). -/
def pyFloatOK (s : String) : Bool := pyIntOK s

/-- None of the example fields matches any of the eight date formats. -/
def pyDateOK (_s : String) : Bool := false

/-- `get_data_type` instantiated with the concrete parser models. -/
def pyGdt : String → PyDataType := get_data_type pyIntOK pyFloatOK pyDateOK

/-- The spec's header example: a label row followed by ten data rows. -/
def c6HeaderRows : List (List String) :=
  ["Name", "Age"] :: List.replicate 10 ["Alice", "34"]

/-- Uniformly typed rows (every row string/int shaped). -/
def c6UniformRows : List (List String) := List.replicate 11 ["Alice", "34"]

/-- Lines of a binary file as Python file iteration yields them: split after
every `\n` byte, terminators kept, a trailing partial line included, no line
for empty content.  The first argument accumulates the current line in
reverse. -/
def pyLinesGo : List Nat → List Nat → List (List Nat)
  | acc, [] => if acc = [] then [] else [acc.reverse]
  | acc, b :: rest =>
    if b = 10 then (acc.reverse ++ [10]) :: pyLinesGo [] rest
    else pyLinesGo (b :: acc) rest

/-- Lines of a byte content under Python binary-mode file iteration. -/
def pyLines (content : List Nat) : List (List Nat) :=
  pyLinesGo [] content

/-- Keys of `collections.Counter(l)` in insertion order (order of first
occurrence in `l`). -/
def counterKeys : List Nat → List Nat
  | [] => []
  | b :: rest => b :: counterKeys (rest.filter (fun x => x ≠ b))
termination_by l => l.length
decreasing_by
  simp only [List.length_cons]
  exact Nat.lt_succ_of_le (List.length_filter_le _ _)

/-- `Counter.most_common(1)[0][0]`: among the keys (in insertion order) the
earliest one with maximal count, since `sorted` is stable. -/
def firstMaxKey (cnt : Nat → Nat) : List Nat → Option Nat
  | [] => none
  | k :: ks =>
    match firstMaxKey cnt ks with
    | none => some k
    | some k2 => if cnt k2 > cnt k then some k2 else some k

/-- The tail of `file_type_from_characteristics`: FIXED_WIDTH when all
sampled lines share one length (`len(Counter(line lengths)) == 1`), else
UNKNOWN. -/
def fixedWidthOrUnknown (lines21 : List (List Nat)) : Except PyExc FileType :=
  if (counterKeys (lines21.map List.length)).length = 1 then
    .ok FileType.FIXED_WIDTH
  else .ok FileType.UNKNOWN

/-- `FileTypeAnalyzer.file_type_from_characteristics`: read the first line
and up to 20 more; `next` on empty content raises StopIteration (uncaught,
re-raised by the `error_handler` wrapper); a StopIteration at loop index
`i < 3` (i.e. at most 3 lines total) returns UNKNOWN; otherwise classify by
first-line markers, then by the dominant delimiter among `, \t | ;` when it
occurs more than once in the first line, then by the fixed-width check over
the at most 21 sampled lines. -/
def file_type_from_characteristics (content : List Nat) :
    Except PyExc FileType :=
  let ls := pyLines content
  if ls.length = 0 then .error .stopIteration
  else if ls.length ≤ 3 then .ok .UNKNOWN
  else
    let lines21 := ls.take 21
    let first := ls.headI
    if listStartsWith [80, 75] first then .ok .ZIP
    else if listStartsWith [60, 63, 120, 109, 108] first then .ok .XML
    else if listStartsWith [123] first then .ok .JSON
    else if listStartsWith [91] first then .ok .JSONL
    else if listStartsWith [73, 68] first then .ok .PDF
    else
      let filtered := first.filter (fun b => b ∈ [44, 9, 124, 59])
      match firstMaxKey (fun x => filtered.count x) (counterKeys filtered) with
      | none => fixedWidthOrUnknown lines21
      | some d =>
        if filtered.count d > 1 then
          if d = 44 then .ok .CSV
          else if d = 9 then .ok .TSV
          else if d = 124 then .ok .PIPE
          else if d = 59 then .ok .CSV
          else fixedWidthOrUnknown lines21
        else fixedWidthOrUnknown lines21

/-- The `Delimiter` enum of `file_handling/analyze/sniffer.py`. -/
inductive Delimiter where
  | NONE
  | COMMA
  | SEMICOLON
  | TAB
  | SPACE
  deriving DecidableEq, Repr

/-- The `Quotechar` enum of `file_handling/analyze/sniffer.py`. -/
inductive Quotechar where
  | DOUBLE_QUOTE
  | SINGLE_QUOTE
  | BACKTICK
  | NONE
  deriving DecidableEq, Repr

/-- The five dialect properties of `FileSniffer` guarded by
`input_type_validation`. -/
inductive DialectField where
  | encoding
  | delimiter
  | lineterminator
  | quotechar
  | header
  deriving DecidableEq, Repr

/-- A Python value assigned to a dialect property: a member of one of the
five enums, or any other object (`other`). -/
inductive PyDialectValue where
  | enc (e : Encoding)
  | delim (d : Delimiter)
  | lineterm (l : LineTerminator)
  | quote (q : Quotechar)
  | head (h : Header)
  | other (tag : Nat)
  deriving DecidableEq, Repr

/-- `isinstance(value, expected_enum)` for each setter's expected enum. -/
def isEnumInstance (v : PyDialectValue) (f : DialectField) : Bool :=
  match v, f with
  | .enc _, .encoding => true
  | .delim _, .delimiter => true
  | .lineterm _, .lineterminator => true
  | .quote _, .quotechar => true
  | .head _, .header => true
  | _, _ => false

/-- The stored dialect state of a `FileSniffer` instance: the `_encoding`,
`_delimiter`, `_lineterminator`, `_quotechar`, `_header` attributes (absent
attributes are `none`). -/
structure SnifferDialect where
  encodingVal : Option Encoding
  delimiterVal : Option Delimiter
  linetermVal : Option LineTerminator
  quotecharVal : Option Quotechar
  headerVal : Option Header
  deriving DecidableEq, Repr

/-- A dialect-property assignment through the `input_type_validation`
wrapper: the `isinstance` check runs before the setter body, so a failing
check raises `TypeError` and leaves the stored attribute untouched. -/
def setDialectField (st : SnifferDialect) (f : DialectField)
    (v : PyDialectValue) : SnifferDialect × Option PyExc :=
  if isEnumInstance v f then
    (match f, v with
     | .encoding, .enc e => { st with encodingVal := some e }
     | .delimiter, .delim d => { st with delimiterVal := some d }
     | .lineterminator, .lineterm l => { st with linetermVal := some l }
     | .quotechar, .quote q => { st with quotecharVal := some q }
     | .header, .head h => { st with headerVal := some h }
     | _, _ => st, none)
  else (st, some .typeError)

/-- Every counted `\r\n` contributes one counted `\n`. -/
theorem countCRLF_le_count_lf (s : List Nat) : countCRLF s ≤ s.count 10 := by
  induction s using countCRLF.induct with
  | case1 => simp [countCRLF]
  | case2 a => simp [countCRLF]
  | case3 a b rest h ih =>
    obtain ⟨ha, hb⟩ := h
    subst ha; subst hb
    rw [countCRLF, if_pos ⟨rfl, rfl⟩]
    simp [List.count_cons]
    omega
  | case4 a b rest h ih =>
    rw [countCRLF, if_neg h]
    calc countCRLF (b :: rest) ≤ (b :: rest).count 10 := ih
      _ ≤ (a :: b :: rest).count 10 := by
          simp only [List.count_cons]; omega

/-- Every counted `\r\n` contributes one counted `\r`. -/
theorem countCRLF_le_count_cr (s : List Nat) : countCRLF s ≤ s.count 13 := by
  induction s using countCRLF.induct with
  | case1 => simp [countCRLF]
  | case2 a => simp [countCRLF]
  | case3 a b rest h ih =>
    obtain ⟨ha, hb⟩ := h
    subst ha; subst hb
    rw [countCRLF, if_pos ⟨rfl, rfl⟩]
    simp [List.count_cons]
    omega
  | case4 a b rest h ih =>
    rw [countCRLF, if_neg h]
    calc countCRLF (b :: rest) ≤ (b :: rest).count 13 := ih
      _ ≤ (a :: b :: rest).count 13 := by
          simp only [List.count_cons]; omega

/-- Claim C1 (corrected): bytes beginning with `PK\x03\x04` classify by
signature as EXCEL, not ZIP: EXCEL precedes ZIP in enum order and both carry
the same signature bytes. -/
theorem c1_excel_shadows_zip
    (content : List Nat) (h : ∃ t, content = [0x50, 0x4b, 0x03, 0x04] ++ t) :
    file_type_from_signature content = FileType.EXCEL := by
  obtain ⟨t, rfl⟩ := h
  rfl

/-- Witness for C1's amended theorem at a concrete input. -/
theorem c1_excel_shadows_zip_witness :
    file_type_from_signature [0x50, 0x4b, 0x03, 0x04, 0x00] = FileType.EXCEL :=
  c1_excel_shadows_zip _ ⟨[0x00], rfl⟩

/-- Counterexample to C1 as stated: the concrete content `PK\x03\x04` is
classified as EXCEL, which is a different variant than ZIP. -/
theorem c1_counterexample :
    file_type_from_signature [0x50, 0x4b, 0x03, 0x04] = FileType.EXCEL ∧
    FileType.EXCEL ≠ FileType.ZIP := by
  exact ⟨rfl, by decide⟩

/-- Claim C2 (confirmed): the merge cascade of `file_type` equals the spec's
7-step precedence table on every triple, and its result is never UNKNOWN. -/
theorem c2_merge_table_exact (e s c : FileType) :
    file_type_merge e s c = specMergeTable e s c ∧
    file_type_merge e s c ≠ FileType.UNKNOWN := by
  refine ⟨rfl, ?_⟩
  unfold file_type_merge
  split_ifs with h1 h2 h3 h4 h5 h6
  · exact h1.2
  · exact h2.2
  · exact h3.2
  · exact h4
  · rw [h5.2]; decide
  · exact h6
  · decide

/-- Witness for C2 at a concrete triple. -/
theorem c2_merge_table_exact_witness :
    file_type_merge FileType.UNKNOWN FileType.UNKNOWN FileType.UNKNOWN
      = specMergeTable FileType.UNKNOWN FileType.UNKNOWN FileType.UNKNOWN ∧
    file_type_merge FileType.UNKNOWN FileType.UNKNOWN FileType.UNKNOWN
      ≠ FileType.UNKNOWN :=
  c2_merge_table_exact FileType.UNKNOWN FileType.UNKNOWN FileType.UNKNOWN

/-- Counterexample to C3 as stated: EXCEL and ZIP are distinct variants whose
byte signatures are both non-empty and equal. -/
theorem c3_counterexample :
    FileType.EXCEL ≠ FileType.ZIP ∧
    FileType.byte_signature FileType.EXCEL ≠ [] ∧
    FileType.byte_signature FileType.ZIP ≠ [] ∧
    FileType.byte_signature FileType.EXCEL = FileType.byte_signature FileType.ZIP := by
  decide

/-- Claim C3 (corrected): the EXCEL/ZIP pair is the only collision among
non-empty byte signatures; every other non-empty signature belongs to exactly
one variant. -/
theorem c3_signature_collisions_only_excel_zip
    (a b : FileType) (hne : a ≠ b)
    (ha : FileType.byte_signature a ≠ [])
    (hb : FileType.byte_signature b ≠ [])
    (heq : FileType.byte_signature a = FileType.byte_signature b) :
    (a = FileType.EXCEL ∧ b = FileType.ZIP) ∨
    (a = FileType.ZIP ∧ b = FileType.EXCEL) := by
  revert hne ha hb heq
  revert a b
  decide

/-- Witness for C3's amended theorem at the concrete colliding pair. -/
theorem c3_signature_collisions_only_excel_zip_witness :
    (FileType.EXCEL = FileType.EXCEL ∧ FileType.ZIP = FileType.ZIP) ∨
    (FileType.EXCEL = FileType.ZIP ∧ FileType.ZIP = FileType.EXCEL) :=
  c3_signature_collisions_only_excel_zip FileType.EXCEL FileType.ZIP
    (by decide) (by decide) (by decide) (by decide)

/-- Each chunk read is at most 4096 bytes, so k chunks are at most 4096k. -/
theorem readChunks_length_le (content : List Nat) (rand : Nat → Nat) :
    ∀ k, (readChunks content rand k).length ≤ k * 4096 := by
  intro k
  induction k with
  | zero => simp [readChunks]
  | succ k ih =>
    rw [readChunks]
    rw [List.length_append]
    have h1 : ((content.drop (rand k)).take 4096).length ≤ 4096 := by
      rw [List.length_take]
      exact Nat.min_le_left _ _
    calc (readChunks content rand k).length +
          ((content.drop (rand k)).take 4096).length
        ≤ k * 4096 + 4096 := Nat.add_le_add ih h1
      _ = (k + 1) * 4096 := by ring

/-- When every drawn offset leaves 4096 readable bytes, each chunk is full. -/
theorem readChunks_length_eq (content : List Nat) (rand : Nat → Nat) :
    ∀ k, (∀ j, j < k → rand j + 4096 ≤ content.length) →
      (readChunks content rand k).length = k * 4096 := by
  intro k
  induction k with
  | zero => intro _; simp [readChunks]
  | succ k ih =>
    intro h
    rw [readChunks, List.length_append]
    have hk : rand k + 4096 ≤ content.length := h k (Nat.lt_succ_self k)
    have h1 : ((content.drop (rand k)).take 4096).length = 4096 := by
      rw [List.length_take, List.length_drop]
      omega
    rw [ih (fun j hj => h j (Nat.lt_succ_of_lt hj)), h1]
    ring

/-- Claim C4 (corrected): `get_random_sample(n)` returns at most `n` bytes;
the request is clamped to the file size, but the result is exactly
`⌊min(n, file_size) / 4096⌋` full 4096-byte chunks whenever every random
offset stays in range — not the whole file when the file is smaller than
`n`. -/
theorem c4_random_sample_amended (content : List Nat) (n : Nat)
    (rand : Nat → Nat) :
    (get_random_sample content n rand).length ≤ n ∧
    ((∀ j, j < bytesToRead content n / 4096 → rand j + 4096 ≤ content.length) →
      (get_random_sample content n rand).length
        = (bytesToRead content n / 4096) * 4096) := by
  constructor
  · calc (get_random_sample content n rand).length
        ≤ (bytesToRead content n / 4096) * 4096 :=
          readChunks_length_le content rand _
      _ ≤ bytesToRead content n := Nat.div_mul_le_self _ _
      _ ≤ n := by unfold bytesToRead; split <;> omega
  · intro h
    exact readChunks_length_eq content rand _ h

/-- Witness for C4's amended theorem: an 8192-byte file sampled with n=5000
and in-range offsets yields exactly one full chunk of 4096 bytes. -/
theorem c4_random_sample_amended_witness :
    (get_random_sample (List.replicate 8192 65) 5000 (fun _ => 0)).length ≤ 5000 ∧
    (get_random_sample (List.replicate 8192 65) 5000 (fun _ => 0)).length
      = (bytesToRead (List.replicate 8192 65) 5000 / 4096) * 4096 :=
  ⟨(c4_random_sample_amended (List.replicate 8192 65) 5000 (fun _ => 0)).1,
   (c4_random_sample_amended (List.replicate 8192 65) 5000 (fun _ => 0)).2
     (by
       intro j hj
       show 0 + 4096 ≤ (List.replicate 8192 (65 : Nat)).length
       rw [List.length_replicate]
       omega)⟩

/-- Counterexample to C4 as stated: a 100-byte file is smaller than the
default request of 16184 bytes, yet the sample is empty, not the whole
file. -/
theorem c4_counterexample :
    (List.replicate 100 (65 : Nat)).length < 16184 ∧
    get_random_sample (List.replicate 100 65) 16184 (fun _ => 0) = [] ∧
    List.replicate 100 (65 : Nat) ≠ [] := by
  refine ⟨by simp, rfl, by simp⟩

/-- A successful attempt returns an encoding that is a candidate for the
attempt's sample and is the chardet guess on that sample. -/
theorem attemptSuccess_sound (decodeOk : Encoding → List Nat → Bool)
    (guess : List Nat → Option Encoding) (sample : List Nat) (e : Encoding)
    (h : attemptSuccess decodeOk guess sample = some e) :
    e ∈ encCandidates decodeOk sample ∧ guess sample = some e := by
  unfold attemptSuccess at h
  cases hg : guess sample with
  | none =>
    rw [hg] at h
    exact Option.noConfusion h
  | some e0 =>
    rw [hg] at h
    have h2 : (if e0 ∈ encCandidates decodeOk sample then some e0 else none)
        = some e := h
    by_cases hm : e0 ∈ encCandidates decodeOk sample
    · rw [if_pos hm] at h2
      injection h2 with he
      subst he
      exact ⟨hm, rfl⟩
    · rw [if_neg hm] at h2
      exact Option.noConfusion h2

/-- Loop invariant of `infer_encoding`: starting at loop index `i` with
`fuel` iterations left, at most `i + fuel` attempts happen in total;
exhaustion means exactly `i + fuel` attempts and one size request per
iteration; the recorded requests are `B*i, B*(i+1), …` in order; and a
returned encoding was a candidate named by the guess on the sample of the
successful attempt. -/
theorem inferEncodingGo_spec (decodeOk : Encoding → List Nat → Bool)
    (guess : List Nat → Option Encoding) (newSample : Nat → Nat → List Nat)
    (B : Nat) :
    ∀ fuel i sample,
      (inferEncodingGo decodeOk guess newSample B fuel i sample).attempts
          ≤ i + fuel ∧
      ((inferEncodingGo decodeOk guess newSample B fuel i sample).found = none →
        (inferEncodingGo decodeOk guess newSample B fuel i sample).attempts
            = i + fuel ∧
        (inferEncodingGo decodeOk guess newSample B fuel i sample).requests.length
            = fuel) ∧
      (∃ m, (inferEncodingGo decodeOk guess newSample B fuel i sample).requests
          = (List.range m).map (fun k => B * (i + k))) ∧
      (∀ e s,
        (inferEncodingGo decodeOk guess newSample B fuel i sample).found
            = some (e, s) →
        e ∈ encCandidates decodeOk s ∧ guess s = some e) := by
  intro fuel
  induction fuel with
  | zero =>
    intro i sample
    refine ⟨Nat.le_refl _, fun _ => ⟨rfl, rfl⟩, ⟨0, rfl⟩, ?_⟩
    intro e s hes
    exact Option.noConfusion hes
  | succ fuel ih =>
    intro i sample
    rw [inferEncodingGo]
    cases ha : attemptSuccess decodeOk guess sample with
    | some e =>
      refine ⟨?_, ?_, ⟨0, rfl⟩, ?_⟩
      · show i + 1 ≤ i + (fuel + 1)
        omega
      · intro hnone
        exact Option.noConfusion hnone
      · intro e2 s hes
        have hes' : some (e, sample) = some (e2, s) := hes
        have hp : (e, sample) = (e2, s) := by injection hes'
        have he : e = e2 := congrArg Prod.fst hp
        have hs : sample = s := congrArg Prod.snd hp
        subst he
        subst hs
        exact attemptSuccess_sound decodeOk guess sample e ha
    | none =>
      obtain ⟨iha, ihn, ⟨m, ihr⟩, ihf⟩ := ih (i + 1) (newSample i (B * i))
      refine ⟨?_, ?_, ?_, ?_⟩
      · show (inferEncodingGo decodeOk guess newSample B fuel (i + 1)
            (newSample i (B * i))).attempts ≤ i + (fuel + 1)
        omega
      · intro hnone
        have hn : (inferEncodingGo decodeOk guess newSample B fuel (i + 1)
            (newSample i (B * i))).found = none := hnone
        obtain ⟨ha2, hl⟩ := ihn hn
        constructor
        · show (inferEncodingGo decodeOk guess newSample B fuel (i + 1)
              (newSample i (B * i))).attempts = i + (fuel + 1)
          omega
        · show (B * i :: (inferEncodingGo decodeOk guess newSample B fuel
              (i + 1) (newSample i (B * i))).requests).length = fuel + 1
          rw [List.length_cons, hl]
      · refine ⟨m + 1, ?_⟩
        show B * i :: (inferEncodingGo decodeOk guess newSample B fuel (i + 1)
            (newSample i (B * i))).requests
          = (List.range (m + 1)).map (fun k => B * (i + k))
        have hfun : ((fun k => B * (i + k)) ∘ Nat.succ)
            = (fun k => B * (i + 1 + k)) := by
          funext k
          show B * (i + (k + 1)) = B * (i + 1 + k)
          congr 1
          omega
        rw [ihr, List.range_succ_eq_map, List.map_cons, List.map_map, hfun]
        exact rfl
      · intro e2 s hes
        have hn : (inferEncodingGo decodeOk guess newSample B fuel (i + 1)
            (newSample i (B * i))).found = some (e2, s) := hes
        exact ihf e2 s hn

/-- Claim C5 (corrected): `infer_encoding` makes at most 5 attempts; raising
`EncodingException` means all 5 attempts ran and 5 replacement samples were
requested; the sizes requested on failed attempts are `B*0, B*1, B*2, …`
(the 0-based loop index, so the first retry requests 0 bytes); and a returned
encoding always lies in the candidate set of the attempt that succeeded,
named by the statistical guess on that attempt's sample. -/
theorem c5_encoding_retry_amended (decodeOk : Encoding → List Nat → Bool)
    (guess : List Nat → Option Encoding) (newSample : Nat → Nat → List Nat)
    (B : Nat) (sample0 : List Nat) :
    (infer_encoding decodeOk guess newSample B sample0).attempts ≤ 5 ∧
    ((infer_encoding decodeOk guess newSample B sample0).found = none →
      (infer_encoding decodeOk guess newSample B sample0).attempts = 5 ∧
      (infer_encoding decodeOk guess newSample B sample0).requests.length = 5) ∧
    (∃ m, (infer_encoding decodeOk guess newSample B sample0).requests
        = (List.range m).map (fun k => B * k)) ∧
    (∀ e s,
      (infer_encoding decodeOk guess newSample B sample0).found = some (e, s) →
      e ∈ encCandidates decodeOk s ∧ guess s = some e) := by
  unfold infer_encoding
  obtain ⟨h1, h2, ⟨m, h3⟩, h4⟩ :=
    inferEncodingGo_spec decodeOk guess newSample B 5 0 sample0
  have hfun : (fun k => B * (0 + k)) = (fun k => B * k) := by
    funext k
    congr 1
    omega
  refine ⟨by omega, ?_, ⟨m, ?_⟩, h4⟩
  · intro hn
    obtain ⟨ha, hl⟩ := h2 hn
    exact ⟨by omega, hl⟩
  · rw [h3, hfun]

/-- Witness for C5's amended theorem: the concrete run in which every attempt
fails makes exactly 5 attempts. -/
theorem c5_encoding_retry_amended_witness :
    (infer_encoding c5DecodeOk c5Guess c5NewSample 16184 c5Sample0).attempts
      = 5 :=
  ((c5_encoding_retry_amended c5DecodeOk c5Guess c5NewSample 16184
      c5Sample0).2.1 (by decide)).1

/-- Counterexample to C5 as stated: in the concrete failing run the recorded
request sizes are `16184 * i` for the 0-based loop index `i`, so the first
replacement requests 0 bytes — not `bytes_to_analyze × attempt_index` for
1-based attempt indices, and not a larger sample (the real
`get_random_sample` returns the empty byte string for a 0-byte request). -/
theorem c5_counterexample :
    (infer_encoding c5DecodeOk c5Guess c5NewSample 16184 c5Sample0).requests
        = [16184 * 0, 16184 * 1, 16184 * 2, 16184 * 3, 16184 * 4] ∧
    (infer_encoding c5DecodeOk c5Guess c5NewSample 16184 c5Sample0).requests.head?
        = some 0 ∧
    (infer_encoding c5DecodeOk c5Guess c5NewSample 16184 c5Sample0).requests.head?
        ≠ some (16184 * 1) ∧
    c5NewSample 0 (16184 * 0) = [] ∧
    c5Sample0 ≠ [] := by
  refine ⟨?_, ?_, ?_, ?_, ?_⟩ <;> decide

/-- Claim C6 (confirmed): with at least two rows, a non-empty first row, and
a second row at least as wide, `infer_header` returns exactly the spec's
rule: no header unless every first-row field classifies as string, else
header present exactly when more than 10% of the first row's column positions
have a type differing from the second row's; the label-row example infers a
header and the uniformly typed rows do not. -/
theorem c6_header_rule :
    (∀ (gdt : String → PyDataType) (first second : List String)
        (rest : List (List String)),
      0 < first.length → first.length ≤ second.length →
      infer_header gdt (first :: second :: rest)
          = some (specHeaderRule gdt first second)) ∧
    infer_header pyGdt c6HeaderRows = some Header.TRUE ∧
    infer_header pyGdt c6UniformRows = some Header.FALSE := by
  refine ⟨?_, by decide, by decide⟩
  intro gdt first second rest h0 hlen
  have h1 : ¬ first.length = 0 := by omega
  have h2 : ¬ second.length < first.length := by omega
  by_cases hall : (first.map gdt).all (fun t => t = PyDataType.str)
  · simp only [infer_header, specHeaderRule, hall, if_true, h1, if_false, h2]
    split
    next => rfl
    next => rfl
  · simp [infer_header, specHeaderRule, hall]

/-- Witness for C6 at the concrete label-row example. -/
theorem c6_header_rule_witness :
    infer_header pyGdt (["Name", "Age"] :: ["Alice", "34"] :: [])
        = some (specHeaderRule pyGdt ["Name", "Age"] ["Alice", "34"]) :=
  c6_header_rule.1 pyGdt ["Name", "Age"] ["Alice", "34"] []
    (by decide) (by decide)

set_option maxRecDepth 40000 in
/-- Claim C7 (confirmed): `infer_line_terminator` returns CRLF when the CRLF
count exceeds `LF + 0.9*CR` or when the LF and CR counts tie (including the
no-line-break sample); otherwise it returns a terminator of maximal count;
and the 100-CRLF/5-LF/5-CR sample infers CRLF. -/
theorem c7_line_terminator_rule :
    (∀ s : List Nat,
      (10 * countCRLF s > 10 * s.count 10 + 9 * s.count 13 ∨
          s.count 10 = s.count 13 →
        infer_line_terminator s = LineTerminator.CRLF) ∧
      (¬ 10 * countCRLF s > 10 * s.count 10 + 9 * s.count 13 →
        s.count 10 ≠ s.count 13 →
        ∀ t, ltCount s t ≤ ltCount s (infer_line_terminator s))) ∧
    infer_line_terminator c7Sample = LineTerminator.CRLF := by
  constructor
  · intro s
    constructor
    · intro h
      simp only [infer_line_terminator]
      rcases h with h | h
      · rw [if_pos h]
      · split_ifs with h1
        · rfl
        · rfl
    · intro hgt hne t
      have hlf := countCRLF_le_count_lf s
      have hcr := countCRLF_le_count_cr s
      simp only [infer_line_terminator]
      split_ifs with hc3 hc4
      · cases t with
        | CRLF => exact Nat.le_refl _
        | LF => exact hc3.1
        | CR => exact hc3.2
      · cases t with
        | CRLF => exact hlf
        | LF => exact Nat.le_refl _
        | CR => exact hc4
      · cases t with
        | CRLF => exact hcr
        | LF => exact Nat.le_of_not_le hc4
        | CR => exact Nat.le_refl _
  · decide

/-- Witness for C7 at two concrete samples: an LF/CR tie infers CRLF, and an
LF-dominant sample has maximal count at the inferred terminator. -/
theorem c7_line_terminator_rule_witness :
    infer_line_terminator [13, 10] = LineTerminator.CRLF ∧
    ltCount [10, 10, 13] LineTerminator.CR
        ≤ ltCount [10, 10, 13] (infer_line_terminator [10, 10, 13]) :=
  ⟨(c7_line_terminator_rule.1 [13, 10]).1 (Or.inr (by decide)),
   (c7_line_terminator_rule.1 [10, 10, 13]).2 (by decide) (by decide)
     LineTerminator.CR⟩

/-- Counterexample to C8 as stated: the empty file (zero readable lines, so
fewer than 4) makes `file_type_from_characteristics` raise StopIteration
instead of returning UNKNOWN. -/
theorem c8_counterexample :
    file_type_from_characteristics [] = Except.error PyExc.stopIteration ∧
    Except.error PyExc.stopIteration ≠ Except.ok FileType.UNKNOWN := by
  exact ⟨rfl, fun h => Except.noConfusion h⟩

/-- Claim C8 (corrected): for every file with at least one and at most three
readable lines, `file_type_from_characteristics` returns UNKNOWN and raises
no exception, regardless of content. -/
theorem c8_few_lines_unknown (content : List Nat)
    (hc1 : 1 ≤ (pyLines content).length)
    (hc3 : (pyLines content).length ≤ 3) :
    file_type_from_characteristics content = Except.ok FileType.UNKNOWN := by
  have hne0 : ¬ (pyLines content).length = 0 := by omega
  simp only [file_type_from_characteristics]
  rw [if_neg hne0, if_pos hc3]

/-- Witness for C8 at a concrete one-line file. -/
theorem c8_few_lines_unknown_witness :
    file_type_from_characteristics [65] = Except.ok FileType.UNKNOWN :=
  c8_few_lines_unknown [65] (by decide) (by decide)

/-- Claim C9 (confirmed): assigning a value that is not a member of the
property's enum fails the `isinstance` check of `input_type_validation`
before the setter body runs, raising TypeError and leaving the stored
dialect state unchanged. -/
theorem c9_dialect_setter_atomic (st : SnifferDialect) (f : DialectField)
    (v : PyDialectValue) (h : isEnumInstance v f = false) :
    setDialectField st f v = (st, some PyExc.typeError) := by
  simp [setDialectField, h]

/-- Witness for C9: assigning a non-enum value to `encoding` on an empty
dialect state. -/
theorem c9_dialect_setter_atomic_witness :
    setDialectField ⟨none, none, none, none, none⟩ DialectField.encoding
        (PyDialectValue.other 0)
      = (⟨none, none, none, none, none⟩, some PyExc.typeError) :=
  c9_dialect_setter_atomic ⟨none, none, none, none, none⟩
    DialectField.encoding (PyDialectValue.other 0) (by decide)

/-- Claim C10 (confirmed): literal substring counting makes every CRLF also
count as one LF and one CR, so the weighted comparison
`count(CRLF) > count(LF) + 0.9*count(CR)` never holds and
`infer_line_terminator` can return CRLF only through the LF/CR equality
branch. -/
theorem c10_weighted_crlf_branch_unreachable (s : List Nat) :
    countCRLF s ≤ s.count 10 ∧ countCRLF s ≤ s.count 13 ∧
    ¬ 10 * countCRLF s > 10 * s.count 10 + 9 * s.count 13 ∧
    (infer_line_terminator s = LineTerminator.CRLF →
      s.count 10 = s.count 13) := by
  have hlf := countCRLF_le_count_lf s
  have hcr := countCRLF_le_count_cr s
  refine ⟨hlf, hcr, by omega, ?_⟩
  intro hres
  by_contra hne
  have hno : infer_line_terminator s ≠ LineTerminator.CRLF := by
    simp only [infer_line_terminator]
    have hn1 : ¬ 10 * countCRLF s > 10 * s.count 10 + 9 * s.count 13 := by
      omega
    rw [if_neg hn1, if_neg hne]
    split_ifs with h3 h4
    · obtain ⟨h31, h32⟩ := h3
      exact absurd (by omega : s.count 10 = s.count 13) hne
    · decide
    · decide
  exact hno hres

/-- Witness for C10: a sample on which the terminator is CRLF indeed has
equal LF and CR counts. -/
theorem c10_weighted_crlf_branch_unreachable_witness :
    ([13, 10] : List Nat).count 10 = ([13, 10] : List Nat).count 13 :=
  (c10_weighted_crlf_branch_unreachable [13, 10]).2.2.2 (by decide)
